import Mathlib

/-!
Verification of the feedback resolution logic of the sensor-map backend.

The embedding models `main/api.py` (`FeedbackView.get` and the feedback
part of `OverviewView.get`) together with the data model of
`main/models.py` (`Feedback`) and the serializer of
`main/serializers.py` (`FeedbackSerializer`).

Modelling choices:
* The feedback store is a list of rows (`FeedbackRecord`); the relational
  operations `filter`, `order_by(...).first()`, `values(...).annotate(Max)`
  and `aggregate(Sum/Max)` are embedded as list operations.
* Timestamps and durations are integers counted in minutes
  (`timedelta(minutes=m)` becomes subtraction of `m`).
* A sensor is referenced by its primary key (`sensor_id` foreign-key
  column), modelled as `Nat`.
* The `window` query parameter is `Option (Option Int)`: `none` means the
  parameter is absent, `some none` means it is present but does not parse
  as an integer (`int(...)` raises `ValueError`), `some (some m)` means it
  parses to `m`.
* A serialized payload is a record of optional fields; `none` means the
  field is absent from the emitted JSON object.
-/

/-- A row of the `feedback` table (`main/models.py`, class `Feedback`):
primary key `id`, optional sensor reference (`null` means a global
aggregate), the two counters, the window duration in minutes, and the
`updated_at` timestamp. -/
structure FeedbackRecord where
  id : Nat
  sensorRef : Option Nat
  coldCount : Int
  hotCount : Int
  window : Int
  updatedAt : Int
  deriving DecidableEq, Repr

/-- A serialized feedback payload. Each field is `none` when absent from
the emitted JSON object; `sensorId = some none` means the field is present
with value `null`. -/
structure Payload where
  sensorId : Option (Option Nat)
  coldCount : Option Int
  hotCount : Option Int
  windowMinutes : Option Int
  updatedAt : Option Int
  deriving DecidableEq, Repr

/-- Outcome of a `GET /api/feedback` request: a 200 payload or a 400
structured error. -/
inductive ResolveResult where
  | ok (p : Payload)
  | badRequest (msg : String)
  deriving DecidableEq, Repr

/-- `Feedback.objects.filter(sensor__isnull=True)`. -/
def globalRecords (s : List FeedbackRecord) : List FeedbackRecord :=
  s.filter (fun r => r.sensorRef.isNone)

/-- `a` strictly precedes `b` under `order_by("-updated_at", "-id")`. -/
def betterGlobal (a b : FeedbackRecord) : Bool :=
  decide (b.updatedAt < a.updatedAt) ||
    (a.updatedAt == b.updatedAt && decide (b.id < a.id))

/-- `order_by("-updated_at", "-id").first()`: the first row under the
descending ordering, i.e. a row maximal for `(updated_at, id)`. -/
def firstByDesc : List FeedbackRecord → Option FeedbackRecord
  | [] => none
  | r :: rs =>
    match firstByDesc rs with
    | none => some r
    | some b => if betterGlobal b r then some b else some r

/-- `FeedbackSerializer` (`main/serializers.py`): its `Meta.fields` are
exactly `("sensorId", "hotCount", "coldCount")`. `sensorId` has source
`sensor.sensor_id` with `required=False`, so for a record with a null
sensor the attribute lookup fails and the field is skipped; `window` and
`updated_at` are not serialized at all. -/
def serializeFeedback (r : FeedbackRecord) : Payload :=
  { sensorId := match r.sensorRef with
      | none => none
      | some sid => some (some sid)
    coldCount := some r.coldCount
    hotCount := some r.hotCount
    windowMinutes := none
    updatedAt := none }

/-- `request.query_params.get("window", 15)` followed by `int(...)`:
an absent parameter defaults to 15, a malformed one yields no integer. -/
def parseWindow : Option (Option Int) → Option Int
  | none => some 15
  | some p => p

/-- The filter `sensor__isnull=False, updated_at__gte=since`. -/
def inWindow (since : Int) (r : FeedbackRecord) : Bool :=
  r.sensorRef.isSome && decide (since ≤ r.updatedAt)

/-- `Feedback.objects.filter(sensor__isnull=False, updated_at__gte=since)`. -/
def windowRecords (s : List FeedbackRecord) (since : Int) : List FeedbackRecord :=
  s.filter (inWindow since)

/-- The grouping keys of `.values("sensor_id")`: the distinct sensor
references occurring in the window. -/
def sensorsInWindow (s : List FeedbackRecord) (since : Int) : List Nat :=
  ((windowRecords s since).filterMap (fun r => r.sensorRef)).dedup

/-- Maximum of a list of integers (`Max("updated_at")` over a row set);
`none` on the empty set (SQL `NULL`). -/
def maxOf : List Int → Option Int
  | [] => none
  | x :: xs => some (xs.foldl max x)

/-- `.annotate(latest=Max("updated_at"))` for one grouping key: the
latest in-window timestamp of sensor `sid`. -/
def latestOf (s : List FeedbackRecord) (since : Int) (sid : Nat) : Option Int :=
  maxOf (((windowRecords s since).filter (fun r => r.sensorRef == some sid)).map
    (fun r => r.updatedAt))

/-- `Feedback.objects.filter(q_objects)` where `q_objects` is the OR over
the grouped rows of `Q(sensor_id=row.sensor_id, updated_at=row.latest)`. -/
def selectedRecords (s : List FeedbackRecord) (since : Int) : List FeedbackRecord :=
  s.filter (fun r =>
    (sensorsInWindow s since).any (fun sid =>
      r.sensorRef == some sid && latestOf s since sid == some r.updatedAt))

/-- `FeedbackView.get` (`main/api.py`): return the latest global record
if one exists, otherwise parse the window parameter and aggregate the
freshest in-window record of each sensor. `now` is the value of
`timezone.now()` (the request is modelled at a single instant). -/
def resolve (s : List FeedbackRecord) (windowParam : Option (Option Int))
    (now : Int) : ResolveResult :=
  match firstByDesc (globalRecords s) with
  | some g => .ok (serializeFeedback g)
  | none =>
    match parseWindow windowParam with
    | none => .badRequest "window must be integer minutes"
    | some minutes =>
      let since := now - minutes
      if sensorsInWindow s since = [] then
        .ok { sensorId := some none, coldCount := some 0, hotCount := some 0,
              windowMinutes := some minutes, updatedAt := some now }
      else
        let sel := selectedRecords s since
        let cold := (sel.map (fun r => r.coldCount)).sum
        let hot := (sel.map (fun r => r.hotCount)).sum
        let latest := match maxOf (sel.map (fun r => r.updatedAt)) with
          | none => now
          | some m => m
        .ok { sensorId := some none, coldCount := some cold,
              hotCount := some hot, windowMinutes := some minutes,
              updatedAt := some latest }

/-- The feedback payload assembled inside `OverviewView.get`
(`main/api.py`), which duplicates the `/api/feedback` logic with the
window fixed at 15 minutes. -/
def overviewFeedback (s : List FeedbackRecord) (now : Int) : Payload :=
  match firstByDesc (globalRecords s) with
  | some g => serializeFeedback g
  | none =>
    let minutes : Int := 15
    let since := now - minutes
    if sensorsInWindow s since ≠ [] then
      let sel := selectedRecords s since
      let cold := (sel.map (fun r => r.coldCount)).sum
      let hot := (sel.map (fun r => r.hotCount)).sum
      let latest := match maxOf (sel.map (fun r => r.updatedAt)) with
        | none => now
        | some m => m
      { sensorId := some none, coldCount := some cold, hotCount := some hot,
        windowMinutes := some minutes, updatedAt := some latest }
    else
      { sensorId := some none, coldCount := some 0, hotCount := some 0,
        windowMinutes := some 15, updatedAt := some now }

/-- All five fields of the documented `FeedbackResult` shape are present. -/
def hasAllFields (p : Payload) : Bool :=
  p.sensorId.isSome && p.coldCount.isSome && p.hotCount.isSome &&
    p.windowMinutes.isSome && p.updatedAt.isSome

-- Reference scenario of the spec (two sensors, no global record).
example :
    resolve
      [⟨1, some 1, 2, 1, 15, 99⟩, ⟨2, some 2, 1, 0, 15, 98⟩]
      none 100 =
    .ok { sensorId := some none, coldCount := some 3, hotCount := some 1,
          windowMinutes := some 15, updatedAt := some 99 } := by
  decide

-- Scenario: a global record overrides the per-sensor records.
example :
    resolve
      [⟨1, some 1, 2, 1, 15, 99⟩, ⟨2, some 2, 1, 0, 15, 98⟩,
       ⟨3, none, 9, 9, 15, 100⟩]
      none 100 =
    .ok { sensorId := none, coldCount := some 9, hotCount := some 9,
          windowMinutes := none, updatedAt := none } := by
  decide

-- Scenario: malformed window parameter on a store with no global record.
example :
    resolve [⟨1, some 1, 2, 1, 15, 99⟩] (some none) 100 =
    .badRequest "window must be integer minutes" := by
  decide

/-! ### Properties of the descending-order pick -/

theorem betterGlobal_irrefl (a : FeedbackRecord) : betterGlobal a a = false := by
  simp [betterGlobal]

theorem betterGlobal_asymm {a b : FeedbackRecord} (h : betterGlobal a b = true) :
    betterGlobal b a = false := by
  simp only [betterGlobal, Bool.or_eq_true, decide_eq_true_eq, Bool.and_eq_true,
    beq_iff_eq] at h
  simp only [betterGlobal, Bool.or_eq_false_iff, decide_eq_false_iff_not,
    Bool.and_eq_false_iff, beq_eq_false_iff_ne, ne_eq, decide_eq_false_iff_not]
  omega

theorem firstByDesc_mem {l : List FeedbackRecord} {g : FeedbackRecord}
    (h : firstByDesc l = some g) : g ∈ l := by
  induction l with
  | nil => exact absurd h (by simp [firstByDesc])
  | cons r rs ih =>
    rw [firstByDesc] at h
    split at h
    · cases h
      exact List.mem_cons_self _ _
    · rename_i b hb
      split at h
      · cases h
        exact List.mem_cons_of_mem _ (ih hb)
      · cases h
        exact List.mem_cons_self _ _

theorem firstByDesc_eq_none_iff {l : List FeedbackRecord} :
    firstByDesc l = none ↔ l = [] := by
  cases l with
  | nil => simp [firstByDesc]
  | cons r rs =>
    simp only [firstByDesc]
    constructor
    · intro h
      exfalso
      split at h
      · exact Option.noConfusion h
      · split at h <;> exact Option.noConfusion h
    · intro h
      exact absurd h (List.cons_ne_nil r rs)

theorem firstByDesc_eq_of_top {l : List FeedbackRecord} {g : FeedbackRecord}
    (hg : g ∈ l)
    (hmax : ∀ r ∈ l, r ≠ g → betterGlobal g r = true) :
    firstByDesc l = some g := by
  induction l with
  | nil => cases hg
  | cons r rs ih =>
    rw [firstByDesc]
    rcases List.mem_cons.mp hg with hgr | hgs
    · subst hgr
      cases hfb : firstByDesc rs with
      | none => rfl
      | some b =>
        have hb : b ∈ rs := firstByDesc_mem hfb
        by_cases hbg : b = g
        · subst hbg
          simp [betterGlobal_irrefl]
        · have := betterGlobal_asymm (hmax b (List.mem_cons_of_mem _ hb) hbg)
          simp [this]
    · have hrec : firstByDesc rs = some g :=
        ih hgs (fun x hx hne => hmax x (List.mem_cons_of_mem _ hx) hne)
      rw [hrec]
      by_cases hrg : r = g
      · subst hrg
        simp [betterGlobal_irrefl]
      · simp [hmax r (List.mem_cons_self _ _) hrg]

theorem globalRecords_eq_nil {s : List FeedbackRecord}
    (h : ∀ r ∈ s, r.sensorRef ≠ none) : globalRecords s = [] := by
  rw [globalRecords, List.filter_eq_nil_iff]
  intro r hr
  simpa [Option.isNone_iff_eq_none] using h r hr

/-- Claim C1: whenever the store contains at least one global record
(`sensorRef = none`), `resolve` returns the serialization of the global
record `g` that is maximal for `(updatedAt, id)` — most recent first,
ties broken by highest id — for every window parameter `w`, every `now`
(however stale `g` is), and regardless of any extra per-sensor records
`t` present in the store; the windowed computation is never consulted. -/
theorem resolve_global_precedence
    (s t : List FeedbackRecord) (g : FeedbackRecord)
    (hg : g ∈ s) (hnull : g.sensorRef = none)
    (hmax : ∀ r ∈ s, r.sensorRef = none → r ≠ g →
      r.updatedAt < g.updatedAt ∨ (r.updatedAt = g.updatedAt ∧ r.id < g.id))
    (hps : ∀ r ∈ t, r.sensorRef ≠ none)
    (w : Option (Option Int)) (now : Int) :
    resolve (s ++ t) w now = .ok (serializeFeedback g) := by
  have hgt : globalRecords (s ++ t) = globalRecords s := by
    have h2 : globalRecords t = [] := globalRecords_eq_nil hps
    simp only [globalRecords] at h2 ⊢
    rw [List.filter_append, h2, List.append_nil]
  have hmem : g ∈ globalRecords s := by
    rw [globalRecords, List.mem_filter]
    exact ⟨hg, by simp [hnull]⟩
  have htop : ∀ r ∈ globalRecords s, r ≠ g → betterGlobal g r = true := by
    intro r hr hne
    rw [globalRecords, List.mem_filter] at hr
    have hrnull : r.sensorRef = none := by
      simpa [Option.isNone_iff_eq_none] using hr.2
    have hlt := hmax r hr.1 hrnull hne
    simp only [betterGlobal, Bool.or_eq_true, decide_eq_true_eq, Bool.and_eq_true,
      beq_iff_eq]
    omega
  have hpick : firstByDesc (globalRecords (s ++ t)) = some g := by
    rw [hgt]
    exact firstByDesc_eq_of_top hmem htop
  simp only [resolve, hpick]

/-- Witness for C1: a store with two stale global records and a fresh
per-sensor record; the global record with the higher id wins. -/
theorem resolve_global_precedence_witness :
    resolve
      ([⟨2, none, 4, 4, 15, 50⟩, ⟨3, none, 9, 9, 15, 50⟩] ++
        [⟨7, some 1, 2, 1, 15, 100⟩])
      (some (some 15)) 100 =
      .ok (serializeFeedback ⟨3, none, 9, 9, 15, 50⟩) :=
  resolve_global_precedence _ _ _ (by decide) (by decide) (by decide) (by decide)
    (some (some 15)) 100

/-- Claim C7: resolution is deterministic — identical store contents,
identical window parameter and the same `now` yield identical results. -/
theorem resolve_deterministic (s₁ s₂ : List FeedbackRecord)
    (w₁ w₂ : Option (Option Int)) (n₁ n₂ : Int)
    (hs : s₁ = s₂) (hw : w₁ = w₂) (hn : n₁ = n₂) :
    resolve s₁ w₁ n₁ = resolve s₂ w₂ n₂ := by
  subst hs
  subst hw
  subst hn
  rfl

/-- Witness for C7 at a concrete store, window and instant. -/
theorem resolve_deterministic_witness :
    resolve [⟨1, some 1, 2, 1, 15, 99⟩] (some (some 15)) 100 =
      resolve [⟨1, some 1, 2, 1, 15, 99⟩] (some (some 15)) 100 :=
  resolve_deterministic _ _ _ _ _ _ rfl rfl rfl

/-- Claim C3 (amended): when the store has no global record, a present
but non-integer `window` parameter yields the 400 error
"window must be integer minutes"; the validation sits after the
global-record lookup, so it is only reached in that case. -/
theorem resolve_malformed_window (s : List FeedbackRecord) (now : Int)
    (hng : globalRecords s = []) :
    resolve s (some none) now = .badRequest "window must be integer minutes" := by
  have : firstByDesc (globalRecords s) = none := by
    rw [hng]
    rfl
  simp only [resolve, this, parseWindow]

/-- Witness for the amended C3: a store holding one per-sensor record. -/
theorem resolve_malformed_window_witness :
    globalRecords [(⟨1, some 1, 2, 1, 15, 100⟩ : FeedbackRecord)] = [] ∧
    resolve [⟨1, some 1, 2, 1, 15, 100⟩] (some none) 100 =
      .badRequest "window must be integer minutes" :=
  ⟨by decide, resolve_malformed_window _ 100 (by decide)⟩

/-- Counterexample to C3 as stated: with a global record in the store, a
malformed `window` parameter is never examined — the code performs the
global lookup first and returns the global record instead of the
BAD_REQUEST error the claim requires. -/
theorem resolve_malformed_window_global_cx :
    resolve [⟨1, none, 5, 7, 15, 0⟩] (some none) 100 =
      .ok { sensorId := none, coldCount := some 5, hotCount := some 7,
            windowMinutes := none, updatedAt := none } ∧
    resolve [⟨1, none, 5, 7, 15, 0⟩] (some none) 100 ≠
      .badRequest "window must be integer minutes" := by
  decide

/-! ### Properties of the windowed selection -/

theorem foldl_max_le {xs : List Int} {a : Int} : a ≤ xs.foldl max a := by
  induction xs generalizing a with
  | nil => exact le_refl a
  | cons x xs ih =>
    rw [List.foldl_cons]
    exact le_trans (le_max_left a x) ih

theorem le_foldl_max_of_mem {xs : List Int} {a x : Int} (hx : x ∈ xs) :
    x ≤ xs.foldl max a := by
  induction xs generalizing a with
  | nil => cases hx
  | cons y ys ih =>
    rw [List.foldl_cons]
    rcases List.mem_cons.mp hx with rfl | hmem
    · exact le_trans (le_max_right a x) foldl_max_le
    · exact ih hmem

theorem foldl_max_mem {xs : List Int} {a : Int} : xs.foldl max a ∈ a :: xs := by
  induction xs generalizing a with
  | nil => simp
  | cons x xs ih =>
    rw [List.foldl_cons]
    rcases List.mem_cons.mp (ih (a := max a x)) with h | h
    · rcases max_choice a x with hm | hm <;> rw [h, hm]
      · exact List.mem_cons_self _ _
      · exact List.mem_cons_of_mem _ (List.mem_cons_self _ _)
    · exact List.mem_cons_of_mem _ (List.mem_cons_of_mem _ h)

theorem maxOf_mem {xs : List Int} {m : Int} (h : maxOf xs = some m) : m ∈ xs := by
  cases xs with
  | nil => exact absurd h (by simp [maxOf])
  | cons x xs =>
    rw [maxOf, Option.some_inj] at h
    rw [← h]
    exact foldl_max_mem

theorem maxOf_is_max {xs : List Int} {m : Int} (h : maxOf xs = some m) :
    ∀ x ∈ xs, x ≤ m := by
  cases xs with
  | nil => exact absurd h (by simp [maxOf])
  | cons y ys =>
    rw [maxOf, Option.some_inj] at h
    intro x hx
    rw [← h]
    rcases List.mem_cons.mp hx with rfl | hmem
    · exact foldl_max_le
    · exact le_foldl_max_of_mem hmem

theorem maxOf_ne_none {xs : List Int} (h : xs ≠ []) : maxOf xs ≠ none := by
  cases xs with
  | nil => exact absurd rfl h
  | cons x xs => simp [maxOf]

theorem windowRecords_spec {s : List FeedbackRecord} {since : Int}
    {r : FeedbackRecord} (h : r ∈ windowRecords s since) :
    r ∈ s ∧ r.sensorRef ≠ none ∧ since ≤ r.updatedAt := by
  rw [windowRecords, List.mem_filter, inWindow, Bool.and_eq_true,
    decide_eq_true_eq, Option.isSome_iff_ne_none] at h
  exact ⟨h.1, h.2.1, h.2.2⟩

theorem latestOf_spec {s : List FeedbackRecord} {since : Int} {sid : Nat} {m : Int}
    (h : latestOf s since sid = some m) :
    (∃ r ∈ windowRecords s since, r.sensorRef = some sid ∧ r.updatedAt = m) ∧
      ∀ r ∈ windowRecords s since, r.sensorRef = some sid → r.updatedAt ≤ m := by
  rw [latestOf] at h
  constructor
  · have hmem := maxOf_mem h
    rw [List.mem_map] at hmem
    obtain ⟨r, hr, hupd⟩ := hmem
    rw [List.mem_filter, beq_iff_eq] at hr
    exact ⟨r, hr.1, hr.2, hupd⟩
  · intro r hr hsid
    refine maxOf_is_max h _ (List.mem_map.mpr ⟨r, ?_, rfl⟩)
    rw [List.mem_filter, beq_iff_eq]
    exact ⟨hr, hsid⟩

theorem latestOf_ge_since {s : List FeedbackRecord} {since : Int} {sid : Nat}
    {m : Int} (h : latestOf s since sid = some m) : since ≤ m := by
  obtain ⟨⟨r, hr, _, hupd⟩, _⟩ := latestOf_spec h
  exact hupd ▸ (windowRecords_spec hr).2.2

/-- Claim C6: a record whose `updatedAt` is strictly earlier than
`since = now - windowMinutes` is never part of the selected row set, so it
never contributes to the summed `coldCount`/`hotCount` (the sums of the
windowed computation range exactly over `selectedRecords`). -/
theorem selected_excludes_stale (s : List FeedbackRecord) (minutes now : Int)
    (r : FeedbackRecord) (hr : r ∈ s) (hps : r.sensorRef ≠ none)
    (hold : r.updatedAt < now - minutes) :
    r ∉ selectedRecords s (now - minutes) := by
  intro hmem
  rw [selectedRecords, List.mem_filter, List.any_eq_true] at hmem
  obtain ⟨_, ⟨sid, _, hprop⟩⟩ := hmem
  rw [Bool.and_eq_true, beq_iff_eq, beq_iff_eq] at hprop
  have := latestOf_ge_since hprop.2
  omega

/-- Witness for C6: sensor 1 has a fresh record and a stale one; the
stale record is excluded from the selection. -/
theorem selected_excludes_stale_witness :
    (⟨1, some 1, 2, 1, 15, 50⟩ : FeedbackRecord) ∈
        [(⟨1, some 1, 2, 1, 15, 50⟩ : FeedbackRecord), ⟨2, some 1, 3, 3, 15, 99⟩] ∧
    (⟨1, some 1, 2, 1, 15, 50⟩ : FeedbackRecord).sensorRef ≠ none ∧
    (⟨1, some 1, 2, 1, 15, 50⟩ : FeedbackRecord).updatedAt < 100 - 15 ∧
    (⟨1, some 1, 2, 1, 15, 50⟩ : FeedbackRecord) ∉
      selectedRecords [⟨1, some 1, 2, 1, 15, 50⟩, ⟨2, some 1, 3, 3, 15, 99⟩]
        (100 - 15) :=
  ⟨by decide, by decide, by decide,
    selected_excludes_stale _ 15 100 _ (by decide) (by decide) (by decide)⟩

/-- Claim C9: any integer window value — zero and negative included — is
accepted (the result is never the BAD_REQUEST error), and a record
qualifies for the windowed computation exactly when it has a sensor
reference and `updatedAt ≥ since = now - windowMinutes`. -/
theorem resolve_accepts_any_integer_window (s : List FeedbackRecord)
    (w now : Int) :
    (∀ msg, resolve s (some (some w)) now ≠ .badRequest msg) ∧
    (∀ r, r ∈ windowRecords s (now - w) ↔
      r ∈ s ∧ r.sensorRef ≠ none ∧ now - w ≤ r.updatedAt) := by
  constructor
  · intro msg
    cases hfb : firstByDesc (globalRecords s) with
    | some g => simp [resolve, hfb]
    | none =>
      simp only [resolve, hfb, parseWindow]
      by_cases h : sensorsInWindow s (now - w) = [] <;> simp [h]
  · intro r
    constructor
    · exact windowRecords_spec
    · intro ⟨h1, h2, h3⟩
      rw [windowRecords, List.mem_filter, inWindow, Bool.and_eq_true,
        decide_eq_true_eq, Option.isSome_iff_ne_none]
      exact ⟨h1, h2, h3⟩


/-- Claim C4 (amended): when the store has no global record, every 200
payload carries all five fields `sensorId`, `coldCount`, `hotCount`,
`window.minutes` and `updatedAt`; when a global record is returned, the
serializer emits only `coldCount` and `hotCount` — `window` and
`updatedAt` are absent, and `sensorId` is skipped because the global
record's sensor reference is null. -/
theorem resolve_field_presence (s : List FeedbackRecord)
    (w : Option (Option Int)) (now : Int) (p : Payload)
    (hok : resolve s w now = .ok p) :
    (globalRecords s = [] → hasAllFields p = true) ∧
    (globalRecords s ≠ [] →
      p.sensorId = none ∧ p.coldCount.isSome ∧ p.hotCount.isSome ∧
        p.windowMinutes = none ∧ p.updatedAt = none) := by
  cases hfb : firstByDesc (globalRecords s) with
  | some g =>
    simp only [resolve, hfb, ResolveResult.ok.injEq] at hok
    have hmem := firstByDesc_mem hfb
    have hne : globalRecords s ≠ [] := List.ne_nil_of_mem hmem
    rw [globalRecords, List.mem_filter] at hmem
    have hnull : g.sensorRef = none := by
      simpa [Option.isNone_iff_eq_none] using hmem.2
    refine ⟨fun h => absurd h hne, fun _ => ?_⟩
    rw [← hok]
    simp [serializeFeedback, hnull]
  | none =>
    have hnil : globalRecords s = [] := firstByDesc_eq_none_iff.mp hfb
    refine ⟨fun _ => ?_, fun h => absurd hnil h⟩
    simp only [resolve, hfb] at hok
    split at hok
    · exact absurd hok (by simp)
    · split at hok <;>
      · rw [ResolveResult.ok.injEq] at hok
        rw [← hok]
        rfl

/-- Witness for the amended C4 on an empty store. -/
theorem resolve_field_presence_witness :
    resolve [] none 100 =
      .ok { sensorId := some none, coldCount := some 0, hotCount := some 0,
            windowMinutes := some 15, updatedAt := some 100 } ∧
    ((globalRecords [] = [] →
        hasAllFields ⟨some none, some 0, some 0, some 15, some 100⟩ = true) ∧
      (globalRecords [] ≠ [] →
        Payload.sensorId ⟨some none, some 0, some 0, some 15, some 100⟩ = none ∧
          (Payload.coldCount ⟨some none, some 0, some 0, some 15, some 100⟩).isSome ∧
          (Payload.hotCount ⟨some none, some 0, some 0, some 15, some 100⟩).isSome ∧
          Payload.windowMinutes ⟨some none, some 0, some 0, some 15, some 100⟩ = none ∧
          Payload.updatedAt ⟨some none, some 0, some 0, some 15, some 100⟩ = none)) :=
  ⟨by decide, resolve_field_presence [] none 100 _ (by decide)⟩

/-- Counterexample to C4 as stated: a returned global record carries
neither `window` nor `updatedAt` (nor `sensorId`): `FeedbackSerializer`
only serializes `sensorId`, `hotCount` and `coldCount`, and skips
`sensorId` when the sensor is null. -/
theorem resolve_missing_fields_cx :
    resolve [⟨1, none, 5, 7, 15, 100⟩] none 100 =
      .ok { sensorId := none, coldCount := some 5, hotCount := some 7,
            windowMinutes := none, updatedAt := none } ∧
    hasAllFields ⟨none, some 5, some 7, none, none⟩ = false := by
  decide

/-- Claim C5: with no global record and no per-sensor record inside the
window, resolution succeeds with the zero result: counts 0, null
`sensorId`, the requested window (or the default 15), `updatedAt = now`. -/
theorem resolve_zero_default (s : List FeedbackRecord) (w : Option (Option Int))
    (now m : Int) (hw : parseWindow w = some m)
    (hng : ∀ r ∈ s, r.sensorRef ≠ none)
    (hold : ∀ r ∈ s, r.updatedAt < now - m) :
    resolve s w now =
      .ok { sensorId := some none, coldCount := some 0, hotCount := some 0,
            windowMinutes := some m, updatedAt := some now } := by
  have hgnil : globalRecords s = [] := globalRecords_eq_nil hng
  have hwin : windowRecords s (now - m) = [] := by
    rw [windowRecords, List.filter_eq_nil_iff]
    intro r hr
    have := hold r hr
    simp only [inWindow, Bool.and_eq_true, decide_eq_true_eq, not_and]
    intro _
    omega
  have hsens : sensorsInWindow s (now - m) = [] := by
    rw [sensorsInWindow, hwin]
    rfl
  have hfb : firstByDesc (globalRecords s) = none := by
    rw [hgnil]
    rfl
  simp only [resolve, hfb, hw, hsens, if_pos]

/-- Witness for C5: one per-sensor record far outside a 10-minute
window. -/
theorem resolve_zero_default_witness :
    parseWindow (some (some 10)) = some 10 ∧
    resolve [⟨1, some 1, 2, 1, 15, 30⟩] (some (some 10)) 100 =
      .ok { sensorId := some none, coldCount := some 0, hotCount := some 0,
            windowMinutes := some 10, updatedAt := some 100 } :=
  ⟨by decide, resolve_zero_default _ _ 100 10 (by decide) (by decide) (by decide)⟩

/-- Claim C10: if every record in the store has non-negative counters
(as the `PositiveIntegerField` columns guarantee), then the counters of
every successful resolution are non-negative. -/
theorem resolve_counts_nonneg (s : List FeedbackRecord)
    (w : Option (Option Int)) (now : Int) (p : Payload)
    (hpos : ∀ r ∈ s, 0 ≤ r.coldCount ∧ 0 ≤ r.hotCount)
    (hok : resolve s w now = .ok p) :
    (∀ c, p.coldCount = some c → 0 ≤ c) ∧
      (∀ h, p.hotCount = some h → 0 ≤ h) := by
  cases hfb : firstByDesc (globalRecords s) with
  | some g =>
    simp only [resolve, hfb, ResolveResult.ok.injEq] at hok
    have hmem := firstByDesc_mem hfb
    rw [globalRecords, List.mem_filter] at hmem
    have hg := hpos g hmem.1
    rw [← hok]
    constructor
    · intro c hc
      simp only [serializeFeedback, Option.some_inj] at hc
      omega
    · intro h hh
      simp only [serializeFeedback, Option.some_inj] at hh
      omega
  | none =>
    simp only [resolve, hfb] at hok
    have hsub : ∀ t, ∀ r ∈ selectedRecords s t, r ∈ s := by
      intro t r hr
      rw [selectedRecords, List.mem_filter] at hr
      exact hr.1
    split at hok
    · exact absurd hok (by simp)
    · split at hok <;> rw [ResolveResult.ok.injEq] at hok <;> rw [← hok]
      · exact ⟨fun c hc => by simp only [Option.some_inj] at hc; omega,
          fun h hh => by simp only [Option.some_inj] at hh; omega⟩
      · constructor
        · intro c hc
          simp only [Option.some_inj] at hc
          rw [← hc]
          refine List.sum_nonneg ?_
          intro x hx
          rw [List.mem_map] at hx
          obtain ⟨r, hr, rfl⟩ := hx
          exact (hpos r (hsub _ r hr)).1
        · intro h hh
          simp only [Option.some_inj] at hh
          rw [← hh]
          refine List.sum_nonneg ?_
          intro x hx
          rw [List.mem_map] at hx
          obtain ⟨r, hr, rfl⟩ := hx
          exact (hpos r (hsub _ r hr)).2

/-- Witness for C10 on a two-sensor store with non-negative counters. -/
theorem resolve_counts_nonneg_witness :
    (∀ r ∈ [(⟨1, some 1, 2, 1, 15, 99⟩ : FeedbackRecord),
        ⟨2, some 2, 1, 0, 15, 98⟩], 0 ≤ r.coldCount ∧ 0 ≤ r.hotCount) ∧
    ((∀ c, Payload.coldCount ⟨some none, some 3, some 1, some 15, some 99⟩ =
        some c → 0 ≤ c) ∧
      (∀ h, Payload.hotCount ⟨some none, some 3, some 1, some 15, some 99⟩ =
        some h → 0 ≤ h)) :=
  ⟨by decide,
    resolve_counts_nonneg [⟨1, some 1, 2, 1, 15, 99⟩, ⟨2, some 2, 1, 0, 15, 98⟩]
      none 100 _ (by decide) (by decide)⟩

/-- Claim C8: the feedback payload assembled inside the overview endpoint
equals the `/api/feedback` resolution with the window parameter absent
(default 15), for every store and every instant. -/
theorem overview_matches_feedback (s : List FeedbackRecord) (now : Int) :
    resolve s none now = .ok (overviewFeedback s now) := by
  cases hfb : firstByDesc (globalRecords s) with
  | some g => simp [resolve, overviewFeedback, hfb]
  | none =>
    simp only [resolve, overviewFeedback, hfb, parseWindow]
    by_cases hempty : sensorsInWindow s (now - 15) = []
    · simp [hempty]
    · simp [hempty]

/-! ### Uniqueness of the selected record per sensor -/

theorem filter_eq_singleton {l : List FeedbackRecord} {p : FeedbackRecord → Bool}
    {a : FeedbackRecord} (hnd : l.Nodup) (ha : a ∈ l) (hpa : p a = true)
    (huniq : ∀ x ∈ l, p x = true → x = a) : l.filter p = [a] := by
  induction l with
  | nil => cases ha
  | cons y ys ih =>
    rw [List.nodup_cons] at hnd
    rcases List.mem_cons.mp ha with rfl | hmem
    · rw [List.filter_cons_of_pos hpa]
      have hnil : ys.filter p = [] := by
        rw [List.filter_eq_nil_iff]
        intro x hx hpx
        have hxa := huniq x (List.mem_cons_of_mem _ hx) (by simpa using hpx)
        subst hxa
        exact hnd.1 hx
      rw [hnil]
    · have hya : y ≠ a := by
        intro h
        subst h
        exact hnd.1 hmem
      have hpy : ¬ p y = true := fun hpy =>
        hya (huniq y (List.mem_cons_self _ _) hpy)
      rw [List.filter_cons_of_neg (by simpa using hpy)]
      exact ih hnd.2 hmem (fun x hx hpx => huniq x (List.mem_cons_of_mem _ hx) hpx)

theorem sensorsInWindow_spec {s : List FeedbackRecord} {since : Int} {sid : Nat}
    (h : sid ∈ sensorsInWindow s since) :
    ∃ r ∈ windowRecords s since, r.sensorRef = some sid := by
  rw [sensorsInWindow, List.mem_dedup, List.mem_filterMap] at h
  obtain ⟨r, hr, hsid⟩ := h
  exact ⟨r, hr, hsid⟩

theorem latestOf_isSome_of_mem {s : List FeedbackRecord} {since : Int} {sid : Nat}
    (h : ∃ r ∈ windowRecords s since, r.sensorRef = some sid) :
    ∃ m, latestOf s since sid = some m := by
  obtain ⟨r, hr, hsid⟩ := h
  have hrmem : r ∈ (windowRecords s since).filter (fun x => x.sensorRef == some sid) := by
    rw [List.mem_filter, beq_iff_eq]
    exact ⟨hr, hsid⟩
  have hne : ((windowRecords s since).filter
      (fun x => x.sensorRef == some sid)).map (fun x => x.updatedAt) ≠ [] := by
    intro hnil
    rw [List.map_eq_nil_iff] at hnil
    rw [hnil] at hrmem
    cases hrmem
  rw [latestOf]
  cases hm : maxOf (((windowRecords s since).filter
      (fun x => x.sensorRef == some sid)).map (fun x => x.updatedAt)) with
  | none => exact absurd hm (maxOf_ne_none hne)
  | some m => exact ⟨m, rfl⟩

/-- Claim C2 (amended): assuming unique row ids and that no sensor has
two rows with the same `updatedAt` (with duplicate timestamps per sensor
the code sums every row tied at the maximum), each sensor occurring in
the window contributes exactly one record to the selected set — the
freshest one — so no sensor's counts are summed twice. -/
theorem selected_unique_per_sensor (s : List FeedbackRecord) (since : Int)
    (hid : (s.map FeedbackRecord.id).Nodup)
    (hdist : ∀ r₁ ∈ s, ∀ r₂ ∈ s, r₁.sensorRef ≠ none →
      r₁.sensorRef = r₂.sensorRef → r₁.updatedAt = r₂.updatedAt → r₁.id = r₂.id)
    (sid : Nat) (hsid : sid ∈ sensorsInWindow s since) :
    ∃ r, r ∈ windowRecords s since ∧ r.sensorRef = some sid ∧
      (∀ x ∈ windowRecords s since, x.sensorRef = some sid →
        x.updatedAt ≤ r.updatedAt) ∧
      (selectedRecords s since).filter (fun x => x.sensorRef == some sid) = [r] := by
  obtain ⟨m, hm⟩ := latestOf_isSome_of_mem (sensorsInWindow_spec hsid)
  obtain ⟨⟨rM, hrM, hrMsid, hrMupd⟩, hmax⟩ := latestOf_spec hm
  have hinj := List.inj_on_of_nodup_map hid
  have hrM_s : rM ∈ s := (windowRecords_spec hrM).1
  have hnd : (selectedRecords s since).Nodup := by
    rw [selectedRecords]
    exact (List.Nodup.of_map _ hid).filter _
  refine ⟨rM, hrM, hrMsid, ?_, ?_⟩
  · intro x hx hxsid
    rw [hrMupd]
    exact hmax x hx hxsid
  · refine filter_eq_singleton hnd ?_ (by simp [hrMsid]) ?_
    · rw [selectedRecords, List.mem_filter]
      refine ⟨hrM_s, ?_⟩
      rw [List.any_eq_true]
      refine ⟨sid, hsid, ?_⟩
      rw [Bool.and_eq_true, beq_iff_eq, beq_iff_eq]
      exact ⟨hrMsid, by rw [hm, hrMupd]⟩
    · intro x hx hpx
      rw [beq_iff_eq] at hpx
      rw [selectedRecords, List.mem_filter, List.any_eq_true] at hx
      obtain ⟨hxs, sid2, hsid2, hprop⟩ := hx
      rw [Bool.and_eq_true, beq_iff_eq, beq_iff_eq] at hprop
      obtain ⟨hx1, hx2⟩ := hprop
      rw [hpx] at hx1
      have hsid_eq : sid2 = sid := (Option.some_inj.mp hx1).symm
      rw [hsid_eq, hm] at hx2
      have hupd : x.updatedAt = m := (Option.some_inj.mp hx2).symm
      have hids : x.id = rM.id :=
        hdist x hxs rM hrM_s (by rw [hpx]; exact Option.some_ne_none sid)
          (by rw [hpx, hrMsid]) (by rw [hupd, hrMupd])
      exact hinj hxs hrM_s hids

/-- Witness for the amended C2: sensor 1 has two in-window records with
distinct timestamps; exactly the fresher one is selected. -/
theorem selected_unique_per_sensor_witness :
    (([(⟨1, some 1, 2, 1, 15, 99⟩ : FeedbackRecord),
        ⟨2, some 1, 5, 5, 15, 90⟩].map FeedbackRecord.id).Nodup) ∧
    (1 : Nat) ∈ sensorsInWindow
      [⟨1, some 1, 2, 1, 15, 99⟩, ⟨2, some 1, 5, 5, 15, 90⟩] 85 ∧
    (∃ r, r ∈ windowRecords
        [⟨1, some 1, 2, 1, 15, 99⟩, ⟨2, some 1, 5, 5, 15, 90⟩] 85 ∧
      r.sensorRef = some 1 ∧
      (∀ x ∈ windowRecords
          [⟨1, some 1, 2, 1, 15, 99⟩, ⟨2, some 1, 5, 5, 15, 90⟩] 85,
        x.sensorRef = some 1 → x.updatedAt ≤ r.updatedAt) ∧
      (selectedRecords
          [⟨1, some 1, 2, 1, 15, 99⟩, ⟨2, some 1, 5, 5, 15, 90⟩] 85).filter
        (fun x => x.sensorRef == some 1) = [r]) :=
  ⟨by decide, by decide,
    selected_unique_per_sensor _ 85 (by decide) (by decide) 1 (by decide)⟩

/-- Counterexample to C2 as stated: sensor 1 has two distinct in-window
records (ids 1 and 2) sharing the maximal `updatedAt = 100`; both match
the `(sensor, latest)` disjunction, so both are summed — the coldCount is
2 + 2 = 4, not the single record's 2 the claim requires, and the
selection for sensor 1 has two records, not one. -/
theorem resolve_double_count_cx :
    resolve [⟨1, some 1, 2, 1, 15, 100⟩, ⟨2, some 1, 2, 1, 15, 100⟩]
        (some (some 15)) 100 =
      .ok { sensorId := some none, coldCount := some 4, hotCount := some 2,
            windowMinutes := some 15, updatedAt := some 100 } ∧
    ((selectedRecords [⟨1, some 1, 2, 1, 15, 100⟩, ⟨2, some 1, 2, 1, 15, 100⟩]
        (100 - 15)).filter (fun x => x.sensorRef == some 1)).length = 2 := by
  decide
